import Mathlib

/-!
Shallow embedding of the recording-session orchestrator in
`src/frontend/src-tauri/src/audio/recording_commands.rs`.

The Tauri command layer manipulates three global cells
(`IS_RECORDING : AtomicBool`, `RECORDING_MANAGER : Mutex<Option<RecordingManager>>`,
`TRANSCRIPTION_TASK : Mutex<Option<JoinHandle<()>>>`), calls external
collaborators (audio manager, transcription engines, analytics, preferences),
and emits events to the frontend.  We embed the commands as pure functions
from an explicit global state and an environment oracle (the outcomes of the
external collaborator calls) to a result, a successor state and a trace of
observable effects.  Numeric `f64` fields that the command layer only copies
(durations, confidences, timestamps) are abstracted as `Int`.
-/

namespace RecordingCommands

/-- Wire form of a transcription result produced by the worker pool
(`super::transcription::TranscriptUpdate`).  Only copied by this layer. -/
structure TranscriptUpdate where
  text : String
  audio_start_time : Int
  audio_end_time : Int
  duration : Int
  timestamp : String
  confidence : Int
  sequence_id : Nat
  deriving Repr, DecidableEq

/-- Durable form appended to session state
(`crate::audio::recording_saver::TranscriptSegment`). -/
structure TranscriptSegment where
  id : String
  text : String
  audio_start_time : Int
  audio_end_time : Int
  duration : Int
  display_time : String
  confidence : Int
  sequence_id : Nat
  deriving Repr, DecidableEq

/-- Device role (`DeviceMonitorType`). -/
inductive DeviceMonitorType where
  | Microphone
  | SystemAudio
  deriving Repr, DecidableEq

/-- Device monitor event (`DeviceEvent`). -/
inductive DeviceEvent where
  | DeviceDisconnected (device_name : String) (device_type : DeviceMonitorType)
  | DeviceReconnected (device_name : String) (device_type : DeviceMonitorType)
  | DeviceListChanged
  deriving Repr, DecidableEq

/-- Rust `format!("{:?}", device_type)` for `DeviceMonitorType`. -/
def DeviceMonitorType.debugRepr : DeviceMonitorType → String
  | .Microphone => "Microphone"
  | .SystemAudio => "SystemAudio"

/-- Response structure for device events (`DeviceEventResponse`). -/
inductive DeviceEventResponse where
  | DeviceDisconnected (device_name : String) (device_type : String)
  | DeviceReconnected (device_name : String) (device_type : String)
  | DeviceListChanged
  deriving Repr, DecidableEq

/-- The `impl From<DeviceEvent> for DeviceEventResponse` conversion. -/
def DeviceEventResponse.fromEvent : DeviceEvent → DeviceEventResponse
  | .DeviceDisconnected n t => .DeviceDisconnected n t.debugRepr
  | .DeviceReconnected n t => .DeviceReconnected n t.debugRepr
  | .DeviceListChanged => .DeviceListChanged

/-- Modelled from the spec: the `RecordingManager` session object lives in the
audio module, outside this file's source; §3 and §4.1 of the spec describe its
observable state: pause/duration accounting, device bindings, fatal-error
flag, accumulated transcript segments, meeting name/folder and a FIFO device
event queue.  The command layer only reads these fields through the getters
modelled below. -/
structure RecordingManager where
  paused : Bool
  active : Bool
  recordingDuration : Int
  activeRecordingDuration : Option Int
  totalPauseDuration : Int
  currentPauseDuration : Option Int
  meetingFolder : Option String
  meetingName : Option String
  segments : List TranscriptSegment
  deviceEvents : List DeviceEvent
  fatalError : Bool
  micDeviceName : Option String
  sysDeviceName : Option String
  chunksProcessed : Nat
  deriving Repr, DecidableEq

/-- Modelled from the spec: `RecordingManager::new()` creates a fresh,
inactive session object. -/
def RecordingManager.new : RecordingManager :=
  { paused := false, active := false, recordingDuration := 0,
    activeRecordingDuration := none, totalPauseDuration := 0,
    currentPauseDuration := none, meetingFolder := none, meetingName := none,
    segments := [], deviceEvents := [], fatalError := false,
    micDeviceName := none, sysDeviceName := none, chunksProcessed := 0 }

def RecordingManager.set_meeting_name (m : RecordingManager)
    (name : Option String) : RecordingManager :=
  { m with meetingName := name }

def RecordingManager.is_paused (m : RecordingManager) : Bool := m.paused

def RecordingManager.is_active (m : RecordingManager) : Bool := m.active

def RecordingManager.get_recording_duration (m : RecordingManager) : Int :=
  m.recordingDuration

def RecordingManager.get_active_recording_duration (m : RecordingManager) :
    Option Int := m.activeRecordingDuration

def RecordingManager.get_total_pause_duration (m : RecordingManager) : Int :=
  m.totalPauseDuration

def RecordingManager.get_current_pause_duration (m : RecordingManager) :
    Option Int := m.currentPauseDuration

def RecordingManager.get_meeting_folder (m : RecordingManager) :
    Option String := m.meetingFolder

def RecordingManager.get_meeting_name (m : RecordingManager) : Option String :=
  m.meetingName

def RecordingManager.get_transcript_segments (m : RecordingManager) :
    List TranscriptSegment := m.segments

/-- Modelled from the spec: `add_transcript_segment` is an "idempotent
append keyed by sequence id" (spec §4.1) — a segment whose sequence id is
already present in the accumulated transcript history is not appended
again; otherwise the segment is appended. -/
def RecordingManager.add_transcript_segment (m : RecordingManager)
    (seg : TranscriptSegment) : RecordingManager :=
  if m.segments.any (fun s => s.sequence_id = seg.sequence_id) then m
  else { m with segments := m.segments ++ [seg] }

/-- Modelled from the spec: `poll_device_events` drains one queued event per
call, FIFO (spec §4.1). -/
def RecordingManager.poll_device_events (m : RecordingManager) :
    Option DeviceEvent × RecordingManager :=
  match m.deviceEvents with
  | [] => (none, m)
  | e :: rest => (some e, { m with deviceEvents := rest })

/-- The global mutable state of the command layer: `IS_RECORDING`,
`RECORDING_MANAGER` and `TRANSCRIPTION_TASK` (presence of the join handle). -/
structure GlobalState where
  IS_RECORDING : Bool
  RECORDING_MANAGER : Option RecordingManager
  TRANSCRIPTION_TASK : Bool
  deriving Repr, DecidableEq

instance {ε α : Type} [DecidableEq ε] [DecidableEq α] :
    DecidableEq (Except ε α) := fun a b =>
  match a, b with
  | .ok x, .ok y =>
      if h : x = y then isTrue (by rw [h])
      else isFalse (fun hc => h (by cases hc; rfl))
  | .ok _, .error _ => isFalse (fun h => Except.noConfusion h)
  | .error _, .ok _ => isFalse (fun h => Except.noConfusion h)
  | .error e, .error f =>
      if h : e = f then isTrue (by rw [h])
      else isFalse (fun hc => h (by cases hc; rfl))

/-- Observable effects of a command: frontend event emissions and calls into
external collaborators, in program order.  Emissions of the concurrently
spawned periodic progress task are placed at the await point, flagged
`detailed` as in the source payload. -/
inductive Event where
  | shutdownProgress (stage message : String) (progress : Nat) (detailed : Bool)
  | transcriptionError (message : String)
  | recordingStarted (devices : List String)
  | startCapture (autoSave : Bool)
  | stopStreamsCall
  | spawnProgressTask
  | awaitJoin (result : Except String Unit)
  | abortProgressTask
  | unloadModel (provider model : String) (success : Bool)
  | noEngine (provider : String)
  | trackMeetingEnded (totalDuration activeDuration pauseDuration : Int)
      (micType sysType : String) (chunks segCount : Nat)
      (hadFatal ok : Bool)
  | saveRecordingOnly (result : Except String Unit)
  | recordingStopped (folderPath meetingName : Option String)
  | updateTrayMenu
  deriving Repr, DecidableEq

/-- A non-detailed `recording-shutdown-progress` emission. -/
def progressEvent (stage message : String) (progress : Nat) : Event :=
  .shutdownProgress stage message progress false

/-- Outcome triple of a command: returned result, successor global state,
trace of observable effects. -/
structure Outcome where
  result : Except String Unit
  state : GlobalState
  events : List Event
  deriving Repr, DecidableEq

/-- Environment oracle for `start_recording*`: outcomes of the external
collaborator calls made during start. -/
structure StartEnv where
  /-- `transcription::validate_transcription_model_ready(&app)`. -/
  validationResult : Except String Unit
  /-- `recording_preferences::load_recording_preferences(&app)`, reduced to
  its `auto_save` field. -/
  prefsResult : Except String Bool
  /-- `parse_audio_device(name)` per device name. -/
  parseDevice : String → Except String Unit
  /-- `manager.start_recording*` (capture startup). -/
  startRecordingResult : Except String Unit
  /-- `chrono::Local::now().format("%Y-%m-%d_%H-%M-%S")`. -/
  now : String

/-- The `auto_save` flag as computed from the preferences load: defaults to `true`
when preferences cannot be loaded. -/
def autoSaveOf (env : StartEnv) : Bool :=
  match env.prefsResult with
  | .ok prefs => prefs
  | .error _ => true

/-- Default meeting name `format!("Meeting {}", now)` when none is given. -/
def effectiveMeetingName (env : StartEnv) (meeting_name : Option String) :
    String :=
  match meeting_name with
  | some n => n
  | none => "Meeting " ++ env.now

/-- Embedding of `start_recording_with_meeting_name`: reject when already recording,
validate the transcription model, create and store a manager, set the flag,
spawn the transcription task, emit `recording-started`. -/
def start_recording_with_meeting_name (env : StartEnv)
    (meeting_name : Option String) (s : GlobalState) : Outcome :=
  if s.IS_RECORDING then
    { result := .error "Recording already in progress", state := s, events := [] }
  else
    match env.validationResult with
    | .error validation_error =>
        { result := .error validation_error, state := s,
          events := [.transcriptionError validation_error] }
    | .ok _ =>
        let manager := RecordingManager.new.set_meeting_name
          (some (effectiveMeetingName env meeting_name))
        match env.startRecordingResult with
        | .error e =>
            { result := .error ("Failed to start recording: " ++ e),
              state := s,
              events := [.startCapture (autoSaveOf env)] }
        | .ok _ =>
            { result := .ok (),
              state := { IS_RECORDING := true,
                         RECORDING_MANAGER := some manager,
                         TRANSCRIPTION_TASK := true },
              events := [.startCapture (autoSaveOf env),
                         .recordingStarted
                           ["Default Microphone", "Default System Audio"],
                         .updateTrayMenu] }

/-- The `start_recording` command delegates to the meeting-name variant with `None`. -/
def start_recording (env : StartEnv) (s : GlobalState) : Outcome :=
  start_recording_with_meeting_name env none s

/-- Parsing of an optional named device inside
`start_recording_with_devices_and_meeting`, with the source's error text. -/
def parseOptDevice (env : StartEnv) (role : String) :
    Option String → Except String Unit
  | some name =>
      match env.parseDevice name with
      | .error e =>
          .error ("Invalid " ++ role ++ " device '" ++ name ++ "': " ++ e)
      | .ok d => .ok d
  | none => .ok ()

/-- Embedding of `start_recording_with_devices_and_meeting`: like the default variant but
parses the named devices after model validation and before any manager is
created or stored. -/
def start_recording_with_devices_and_meeting (env : StartEnv)
    (mic_device_name system_device_name meeting_name : Option String)
    (s : GlobalState) : Outcome :=
  if s.IS_RECORDING then
    { result := .error "Recording already in progress", state := s, events := [] }
  else
    match env.validationResult with
    | .error validation_error =>
        { result := .error validation_error, state := s,
          events := [.transcriptionError validation_error] }
    | .ok _ =>
        match parseOptDevice env "microphone" mic_device_name with
        | .error e => { result := .error e, state := s, events := [] }
        | .ok _ =>
        match parseOptDevice env "system" system_device_name with
        | .error e => { result := .error e, state := s, events := [] }
        | .ok _ =>
        let manager := RecordingManager.new.set_meeting_name
          (some (effectiveMeetingName env meeting_name))
        match env.startRecordingResult with
        | .error e =>
            { result := .error ("Failed to start recording: " ++ e),
              state := s,
              events := [.startCapture (autoSaveOf env)] }
        | .ok _ =>
            { result := .ok (),
              state := { IS_RECORDING := true,
                         RECORDING_MANAGER := some manager,
                         TRANSCRIPTION_TASK := true },
              events := [.startCapture (autoSaveOf env),
                         .recordingStarted
                           [mic_device_name.getD "Default Microphone",
                            system_device_name.getD "Default System Audio"],
                         .updateTrayMenu] }

/-- The `start_recording_with_devices` command delegates with `meeting_name = None`. -/
def start_recording_with_devices (env : StartEnv)
    (mic_device_name system_device_name : Option String) (s : GlobalState) :
    Outcome :=
  start_recording_with_devices_and_meeting env mic_device_name
    system_device_name none s

/-- State of a global transcription engine cell (`PARAKEET_ENGINE` /
`WHISPER_ENGINE`): the currently loaded model reported by
`get_current_model()` and whether `unload_model()` succeeds. -/
structure EngineState where
  currentModel : Option String
  unloadSuccess : Bool
  deriving Repr, DecidableEq

/-- Environment oracle for `stop_recording`: outcomes of the external
collaborator calls made during shutdown.  `ticks` gives the wall-clock
readings observed by the periodic 500 ms progress task while the join is
awaited (its length is the number of iterations the task completes before
being aborted). -/
structure StopEnv where
  /-- `manager.stop_streams_and_force_flush()`. -/
  stopStreamsResult : Except String Unit
  /-- `task_handle.await` (the join of the transcription task). -/
  joinResult : Except String Unit
  /-- elapsed-seconds readings of the periodic progress loop iterations. -/
  ticks : List Nat
  /-- provider from `api_get_transcript_config`. -/
  provider : Option String
  parakeetEngine : Option EngineState
  whisperEngine : Option EngineState
  /-- `track_meeting_ended` outcome. -/
  analyticsOk : Bool
  /-- `manager.save_recording_only(&app)`. -/
  saveResult : Except String Unit

/-- Substring test used to embed Rust `str::contains`. -/
def containsSubstr (s pat : String) : Bool :=
  (s.splitOn pat).length > 1

/-- Embedding of `classify_device_type`: privacy-safe Bluetooth/Wired classification of a
device name (nested helper inside `stop_recording`). -/
def classify_device_type (device_name : String) : String :=
  let name_lower := device_name.toLower
  if containsSubstr name_lower "bluetooth"
      || containsSubstr name_lower "airpods"
      || containsSubstr name_lower "beats"
      || containsSubstr name_lower "headphones"
      || containsSubstr name_lower "bt "
      || containsSubstr name_lower "wireless" then
    "Bluetooth"
  else
    "Wired"

/-- One periodic shutdown-progress emission of the spawned monitoring task
(stage `processing_transcripts`, 40 %, `detailed: true`). -/
def tickEvent (elapsed : Nat) : Event :=
  .shutdownProgress "processing_transcripts"
    ("Processing transcripts... (" ++ toString elapsed ++ "s elapsed)") 40 true

/-- Effects of the drain phase of `stop_recording`: when a transcription
task handle exists, spawn the periodic progress task, let it emit its ticks
while `task_handle.await` is pending, then abort it once the await resolves
(on both join outcomes); otherwise nothing. -/
def drainEvents (env : StopEnv) (hasTask : Bool) : List Event :=
  if hasTask then
    [Event.spawnProgressTask]
      ++ env.ticks.map tickEvent
      ++ [Event.awaitJoin env.joinResult, Event.abortProgressTask]
  else
    []

/-- Effects of the model-unload phase: `Some("parakeet")` selects the
Parakeet engine, anything else defaults to Whisper; an absent engine is a
logged warning, a failed unload likewise. -/
def unloadEvents (env : StopEnv) : List Event :=
  if env.provider = some "parakeet" then
    match env.parakeetEngine with
    | some engine =>
        [Event.unloadModel "parakeet" (engine.currentModel.getD "unknown")
          engine.unloadSuccess]
    | none => [Event.noEngine "parakeet"]
  else
    match env.whisperEngine with
    | some engine =>
        [Event.unloadModel "whisper" (engine.currentModel.getD "unknown")
          engine.unloadSuccess]
    | none => [Event.noEngine "whisper"]

/-- Effects of the analytics phase: when a manager was present, its
privacy-safe metadata is extracted and `track_meeting_ended` is called;
otherwise nothing. -/
def analyticsEvents (env : StopEnv) (mgr : Option RecordingManager) :
    List Event :=
  match mgr with
  | some m =>
      [Event.trackMeetingEnded m.get_recording_duration
        (m.get_active_recording_duration.getD 0) m.get_total_pause_duration
        ((m.micDeviceName.map classify_device_type).getD "Unknown")
        ((m.sysDeviceName.map classify_device_type).getD "Unknown")
        m.chunksProcessed m.get_transcript_segments.length
        m.fatalError env.analyticsOk]
  | none => []

/-- Effects and extracted meeting metadata of the finalize phase:
`save_recording_only` is attempted when a manager is present (its error is
logged, never propagated), and the meeting folder/name are extracted. -/
def finalizeCleanup (env : StopEnv) (mgr : Option RecordingManager) :
    List Event × Option String × Option String :=
  match mgr with
  | some m =>
      ([Event.saveRecordingOnly env.saveResult],
        m.get_meeting_folder, m.get_meeting_name)
  | none => ([], none, none)

/-- The `match (&meeting_folder, &meeting_name)` pairing: both present or
both reported as `None`. -/
def pairFolderName : Option String → Option String →
    Option String × Option String
  | some path, some name => (some path, some name)
  | some _, none => (none, none)
  | none, some _ => (none, none)
  | none, none => (none, none)

/-- Embedding of `stop_recording`: graceful shutdown.  No-op when not recording; otherwise
halt audio capture (fatal on failure), drain the transcription task without
any timeout, unload the provider's model, track analytics, save, clear the
flag and emit the final `recording-stopped` event. -/
def stop_recording (env : StopEnv) (s : GlobalState) : Outcome :=
  if !s.IS_RECORDING then
    { result := .ok (), state := s, events := [] }
  else
    let manager_for_cleanup := s.RECORDING_MANAGER
    let stop_result : Except String Unit :=
      match manager_for_cleanup with
      | some _ => env.stopStreamsResult
      | none => .ok ()
    let streamEvents :=
      match manager_for_cleanup with
      | some _ => [Event.stopStreamsCall]
      | none => []
    match stop_result with
    | .error e =>
        { result := .error ("Failed to stop audio streams: " ++ e),
          state := { s with RECORDING_MANAGER := none },
          events :=
            [progressEvent "stopping_audio" "Stopping audio capture..." 20]
              ++ streamEvents }
    | .ok _ =>
        let drain := drainEvents env s.TRANSCRIPTION_TASK
        let unload := unloadEvents env
        let analytics := analyticsEvents env manager_for_cleanup
        let cleanup := finalizeCleanup env manager_for_cleanup
        let fp := pairFolderName cleanup.2.1 cleanup.2.2
        { result := .ok (),
          state := { IS_RECORDING := false, RECORDING_MANAGER := none,
                     TRANSCRIPTION_TASK := false },
          events :=
            [progressEvent "stopping_audio" "Stopping audio capture..." 20]
              ++ streamEvents
              ++ [progressEvent "processing_transcripts"
                    "Processing remaining transcript chunks..." 40]
              ++ drain
              ++ [progressEvent "unloading_model"
                    "Unloading speech recognition model..." 70]
              ++ unload
              ++ analytics
              ++ [progressEvent "finalizing"
                    "Finalizing recording and cleaning up resources..." 90]
              ++ cleanup.1
              ++ [progressEvent "complete" "Recording stopped successfully" 100,
                  Event.recordingStopped fp.1 fp.2,
                  Event.updateTrayMenu] }

/-- The `is_recording` query. -/
def is_recording (s : GlobalState) : Bool := s.IS_RECORDING

/-- Embedding of `is_recording_paused`: `false` when no manager exists. -/
def is_recording_paused (s : GlobalState) : Bool :=
  match s.RECORDING_MANAGER with
  | some manager => manager.is_paused
  | none => false

/-- The JSON object returned by `get_recording_state`, as a record.  `null`
fields are `none`. -/
structure RecordingStateView where
  is_recording : Bool
  is_paused : Bool
  is_active : Bool
  recording_duration : Option Int
  active_duration : Option Int
  total_pause_duration : Int
  current_pause_duration : Option Int
  deriving Repr, DecidableEq

/-- Embedding of `get_recording_state`: detailed state, with safe defaults when no
manager exists. -/
def get_recording_state (s : GlobalState) : RecordingStateView :=
  match s.RECORDING_MANAGER with
  | some manager =>
      { is_recording := s.IS_RECORDING
        is_paused := manager.is_paused
        is_active := manager.is_active
        recording_duration := some manager.get_recording_duration
        active_duration := manager.get_active_recording_duration
        total_pause_duration := manager.get_total_pause_duration
        current_pause_duration := manager.get_current_pause_duration }
  | none =>
      { is_recording := s.IS_RECORDING
        is_paused := false
        is_active := false
        recording_duration := none
        active_duration := none
        total_pause_duration := 0
        current_pause_duration := none }

/-- Embedding of `get_meeting_folder_path`. -/
def get_meeting_folder_path (s : GlobalState) :
    Except String (Option String) :=
  match s.RECORDING_MANAGER with
  | some manager => .ok manager.get_meeting_folder
  | none => .ok none

/-- Embedding of `get_transcript_history`: empty list when no recording is active. -/
def get_transcript_history (s : GlobalState) :
    Except String (List TranscriptSegment) :=
  match s.RECORDING_MANAGER with
  | some manager => .ok manager.get_transcript_segments
  | none => .ok []

/-- Embedding of `get_recording_meeting_name`. -/
def get_recording_meeting_name (s : GlobalState) :
    Except String (Option String) :=
  match s.RECORDING_MANAGER with
  | some manager => .ok manager.get_meeting_name
  | none => .ok none

/-- Embedding of `poll_audio_device_events`: drains one device event from the manager;
`None` when not recording. -/
def poll_audio_device_events (s : GlobalState) :
    Except String (Option DeviceEventResponse) × GlobalState :=
  match s.RECORDING_MANAGER with
  | some manager =>
      match manager.poll_device_events with
      | (some event, manager') =>
          (.ok (some (DeviceEventResponse.fromEvent event)),
            { s with RECORDING_MANAGER := some manager' })
      | (none, manager') =>
          (.ok none, { s with RECORDING_MANAGER := some manager' })
  | none => (.ok none, s)

/-- The `TranscriptSegment` built by the `transcript-update` listener from a
received `TranscriptUpdate`. -/
def listenerSegment (update : TranscriptUpdate) : TranscriptSegment :=
  { id := "seg_" ++ toString update.sequence_id
    text := update.text
    audio_start_time := update.audio_start_time
    audio_end_time := update.audio_end_time
    duration := update.duration
    display_time := update.timestamp
    confidence := update.confidence
    sequence_id := update.sequence_id }

/-- One step of the `transcript-update` listener registered during start:
build the segment from the update and append it to the manager, if any. -/
def on_transcript_update (s : GlobalState) (update : TranscriptUpdate) :
    GlobalState :=
  match s.RECORDING_MANAGER with
  | some manager =>
      let manager' := manager.add_transcript_segment (listenerSegment update)
      { s with RECORDING_MANAGER := some manager' }
  | none => s

/-! ### Trace predicates and ordering -/

/-- The halt of audio acquisition (`stop_streams_and_force_flush`). -/
def isStopStreams : Event → Bool
  | .stopStreamsCall => true
  | _ => false

/-- The await of the transcription worker task (`task_handle.await`). -/
def isAwait : Event → Bool
  | .awaitJoin _ => true
  | _ => false

/-- An effect of the model-unload phase (an unload attempt or the absent
engine warning). -/
def isUnload : Event → Bool
  | .unloadModel _ _ _ => true
  | .noEngine _ => true
  | _ => false

/-- The `save_recording_only` finalization call. -/
def isSaveCall : Event → Bool
  | .saveRecordingOnly _ => true
  | _ => false

/-- The abort of the periodic progress task. -/
def isAbort : Event → Bool
  | .abortProgressTask => true
  | _ => false

/-- A `detailed: true` periodic progress emission. -/
def isDetailedProgress : Event → Bool
  | .shutdownProgress _ _ _ detailed => detailed
  | _ => false

/-- The `(stage, message, percent)` payload of a non-detailed
shutdown-progress emission. -/
def progressEntry : Event → Option (String × String × Nat)
  | .shutdownProgress stage msg p false => some (stage, msg, p)
  | _ => none

/-- The ordered log of non-detailed shutdown-progress notifications in a
trace. -/
def progressLog (tr : List Event) : List (String × String × Nat) :=
  tr.filterMap progressEntry

/-- Ordering predicate `precedes p q tr`: in the trace `tr`, every event satisfying `p` occurs
strictly before every event satisfying `q` (equivalently: once a `q`-event
has occurred, no `p`-event follows). -/
def precedes (p q : Event → Bool) : List Event → Prop
  | [] => True
  | e :: rest => (q e = true → ∀ e' ∈ rest, p e' = false) ∧ precedes p q rest

/-- The events of `stop_recording` up to (and excluding) the drain phase, on
the path where halting the streams succeeded. -/
def stopPrefixEvents (hasMgr : Bool) : List Event :=
  [progressEvent "stopping_audio" "Stopping audio capture..." 20]
    ++ (if hasMgr then [Event.stopStreamsCall] else [])
    ++ [progressEvent "processing_transcripts"
          "Processing remaining transcript chunks..." 40]

/-- The events of `stop_recording` after the drain phase. -/
def stopSuffixEvents (env : StopEnv) (mgr : Option RecordingManager) :
    List Event :=
  [progressEvent "unloading_model" "Unloading speech recognition model..." 70]
    ++ unloadEvents env
    ++ analyticsEvents env mgr
    ++ [progressEvent "finalizing"
          "Finalizing recording and cleaning up resources..." 90]
    ++ (finalizeCleanup env mgr).1
    ++ [progressEvent "complete" "Recording stopped successfully" 100,
        Event.recordingStopped
          (pairFolderName (finalizeCleanup env mgr).2.1
            (finalizeCleanup env mgr).2.2).1
          (pairFolderName (finalizeCleanup env mgr).2.1
            (finalizeCleanup env mgr).2.2).2,
        Event.updateTrayMenu]

/-! ### Concrete sample inputs used by the witnesses -/

/-- A sample mid-session manager. -/
def sampleManager : RecordingManager :=
  { paused := false
    active := true
    recordingDuration := 120
    activeRecordingDuration := some 110
    totalPauseDuration := 10
    currentPauseDuration := none
    meetingFolder := some "/meetings/standup"
    meetingName := some "Standup"
    segments := []
    deviceEvents := []
    fatalError := false
    micDeviceName := some "AirPods Pro"
    sysDeviceName := some "BlackHole 2ch"
    chunksProcessed := 7 }

/-- A sample active global state (recording in progress). -/
def activeState : GlobalState :=
  { IS_RECORDING := true
    RECORDING_MANAGER := some sampleManager
    TRANSCRIPTION_TASK := true }

/-- A sample idle global state (no recording). -/
def idleState : GlobalState :=
  { IS_RECORDING := false
    RECORDING_MANAGER := none
    TRANSCRIPTION_TASK := false }

/-- A sample stop environment where every external call succeeds. -/
def stopEnvOk : StopEnv :=
  { stopStreamsResult := .ok ()
    joinResult := .ok ()
    ticks := [0, 1]
    provider := some "parakeet"
    parakeetEngine := some { currentModel := some "parakeet-tdt", unloadSuccess := true }
    whisperEngine := none
    analyticsOk := true
    saveResult := .ok () }

/-- A sample stop environment where every post-activation collaborator
fails: the join errors, no engine is present, analytics and save fail. -/
def stopEnvFailing : StopEnv :=
  { stopStreamsResult := .ok ()
    joinResult := .error "worker panicked"
    ticks := [0]
    provider := none
    parakeetEngine := none
    whisperEngine := none
    analyticsOk := false
    saveResult := .error "disk full" }

/-- A sample start environment where every external call succeeds. -/
def startEnvOk : StartEnv :=
  { validationResult := .ok ()
    prefsResult := .ok true
    parseDevice := fun _ => .ok ()
    startRecordingResult := .ok ()
    now := "2026-10-12_09-00-00" }

/-- A sample start environment where model validation fails. -/
def startEnvNoModel : StartEnv :=
  { validationResult := .error "No transcription models available"
    prefsResult := .ok true
    parseDevice := fun _ => .ok ()
    startRecordingResult := .ok ()
    now := "2026-10-12_09-00-00" }

/-- A sample start environment where device parsing fails. -/
def startEnvBadDevice : StartEnv :=
  { validationResult := .ok ()
    prefsResult := .ok true
    parseDevice := fun _ => .error "no such device"
    startRecordingResult := .ok ()
    now := "2026-10-12_09-00-00" }

/-- A sample transcript update. -/
def sampleUpdate : TranscriptUpdate :=
  { text := "hello world"
    audio_start_time := 3
    audio_end_time := 5
    duration := 2
    timestamp := "09:00:12"
    confidence := 87
    sequence_id := 4 }

theorem precedes_of_not_left (p q : Event → Bool) (l : List Event)
    (h : ∀ e ∈ l, p e = false) : precedes p q l := by
  induction l with
  | nil => trivial
  | cons e rest ih =>
      refine ⟨fun _ e' he' => h e' (List.mem_cons_of_mem e he'), ?_⟩
      exact ih fun e' he' => h e' (List.mem_cons_of_mem e he')

theorem precedes_of_split (p q : Event → Bool) (l₁ l₂ : List Event)
    (h₁ : ∀ e ∈ l₁, q e = false) (h₂ : ∀ e ∈ l₂, p e = false) :
    precedes p q (l₁ ++ l₂) := by
  induction l₁ with
  | nil => simpa using precedes_of_not_left p q l₂ h₂
  | cons e rest ih =>
      refine ⟨fun hq => ?_, ?_⟩
      · exact absurd hq (by simp [h₁ e (List.mem_cons_self e rest)])
      · exact ih fun e' he' => h₁ e' (List.mem_cons_of_mem e he')

/-- Shape of the events of the drain phase. -/
theorem mem_drainEvents (env : StopEnv) (b : Bool) (e : Event)
    (he : e ∈ drainEvents env b) :
    e = .spawnProgressTask ∨ (∃ t, e = tickEvent t)
      ∨ e = .awaitJoin env.joinResult ∨ e = .abortProgressTask := by
  cases b with
  | false => simp [drainEvents] at he
  | true =>
      simp [drainEvents] at he
      rcases he with h | ⟨t, _, h⟩ | h | h
      · exact Or.inl h
      · exact Or.inr (Or.inl ⟨t, h.symm⟩)
      · exact Or.inr (Or.inr (Or.inl h))
      · exact Or.inr (Or.inr (Or.inr h))

/-- Shape of the events of the unload phase. -/
theorem mem_unloadEvents (env : StopEnv) (e : Event)
    (he : e ∈ unloadEvents env) :
    (∃ p mdl ok, e = .unloadModel p mdl ok) ∨ ∃ p, e = .noEngine p := by
  unfold unloadEvents at he
  split at he
  · cases h : env.parakeetEngine with
    | some engine =>
        rw [h] at he; simp at he
        exact Or.inl ⟨_, _, _, he⟩
    | none =>
        rw [h] at he; simp at he
        exact Or.inr ⟨_, he⟩
  · cases h : env.whisperEngine with
    | some engine =>
        rw [h] at he; simp at he
        exact Or.inl ⟨_, _, _, he⟩
    | none =>
        rw [h] at he; simp at he
        exact Or.inr ⟨_, he⟩

/-- Shape of the events of the analytics phase. -/
theorem mem_analyticsEvents (env : StopEnv) (mgr : Option RecordingManager)
    (e : Event) (he : e ∈ analyticsEvents env mgr) :
    ∃ a b c d f g h i j, e = .trackMeetingEnded a b c d f g h i j := by
  cases mgr with
  | none => simp [analyticsEvents] at he
  | some m =>
      simp [analyticsEvents] at he
      exact ⟨_, _, _, _, _, _, _, _, _, he⟩

/-- Shape of the events of the finalize phase. -/
theorem mem_finalizeCleanup (env : StopEnv) (mgr : Option RecordingManager)
    (e : Event) (he : e ∈ (finalizeCleanup env mgr).1) :
    e = .saveRecordingOnly env.saveResult := by
  cases mgr with
  | none => simp [finalizeCleanup] at he
  | some m =>
      simp [finalizeCleanup] at he
      exact he

/-- Unfolding of `stop_recording` on the main path: active session, manager
present, stream halt succeeded. -/
theorem stop_recording_eq_ok (env : StopEnv) (s : GlobalState)
    (m : RecordingManager) (hrec : s.IS_RECORDING = true)
    (hm : s.RECORDING_MANAGER = some m)
    (hok : env.stopStreamsResult = .ok ()) :
    stop_recording env s =
      { result := .ok ()
        state := { IS_RECORDING := false
                   RECORDING_MANAGER := none
                   TRANSCRIPTION_TASK := false }
        events := stopPrefixEvents true
          ++ drainEvents env s.TRANSCRIPTION_TASK
          ++ stopSuffixEvents env (some m) } := by
  simp [stop_recording, hrec, hm, hok, stopPrefixEvents, stopSuffixEvents]

/-- Unfolding of `stop_recording` when active but no manager is stored. -/
theorem stop_recording_eq_no_mgr (env : StopEnv) (s : GlobalState)
    (hrec : s.IS_RECORDING = true) (hm : s.RECORDING_MANAGER = none) :
    stop_recording env s =
      { result := .ok ()
        state := { IS_RECORDING := false
                   RECORDING_MANAGER := none
                   TRANSCRIPTION_TASK := false }
        events := stopPrefixEvents false
          ++ drainEvents env s.TRANSCRIPTION_TASK
          ++ stopSuffixEvents env none } := by
  simp [stop_recording, hrec, hm, stopPrefixEvents, stopSuffixEvents]

/-- Unfolding of `stop_recording` when halting the audio streams fails. -/
theorem stop_recording_eq_err (env : StopEnv) (s : GlobalState)
    (m : RecordingManager) (msg : String) (hrec : s.IS_RECORDING = true)
    (hm : s.RECORDING_MANAGER = some m)
    (herr : env.stopStreamsResult = .error msg) :
    stop_recording env s =
      { result := .error ("Failed to stop audio streams: " ++ msg)
        state := { s with RECORDING_MANAGER := none }
        events := [progressEvent "stopping_audio" "Stopping audio capture..." 20,
                   Event.stopStreamsCall] } := by
  simp [stop_recording, hrec, hm, herr]

/-- The prefix phase contains no await, no unload, no abort, no save and no
spawned progress task. -/
theorem stopPrefixEvents_class (b : Bool) :
    ∀ e ∈ stopPrefixEvents b, isAwait e = false ∧ isUnload e = false
      ∧ isAbort e = false ∧ isSaveCall e = false
      ∧ isDetailedProgress e = false ∧ e ≠ Event.spawnProgressTask := by
  intro e he
  cases b with
  | false =>
      simp [stopPrefixEvents] at he
      rcases he with h | h <;> subst h <;>
        exact ⟨rfl, rfl, rfl, rfl, rfl, by intro hc; cases hc⟩
  | true =>
      simp [stopPrefixEvents] at he
      rcases he with h | h | h <;> subst h <;>
        exact ⟨rfl, rfl, rfl, rfl, rfl, by intro hc; cases hc⟩

/-- The drain phase contains no stream-halt call, no unload and no save. -/
theorem drainEvents_class (env : StopEnv) (b : Bool) :
    ∀ e ∈ drainEvents env b, isStopStreams e = false ∧ isUnload e = false
      ∧ isSaveCall e = false := by
  intro e he
  rcases mem_drainEvents env b e he with h | ⟨t, h⟩ | h | h <;> subst h <;>
    exact ⟨rfl, rfl, rfl⟩

/-- The suffix phase contains no stream-halt call, no await, no abort, no
spawned progress task and no detailed progress emission. -/
theorem stopSuffixEvents_class (env : StopEnv) (mgr : Option RecordingManager) :
    ∀ e ∈ stopSuffixEvents env mgr, isStopStreams e = false
      ∧ isAwait e = false ∧ isAbort e = false
      ∧ isDetailedProgress e = false ∧ e ≠ Event.spawnProgressTask := by
  intro e he
  simp [stopSuffixEvents] at he
  rcases he with h | h | h | h | h | h | h | h
  · subst h; exact ⟨rfl, rfl, rfl, rfl, by intro hc; cases hc⟩
  · rcases mem_unloadEvents env e h with ⟨p, mdl, ok, h⟩ | ⟨p, h⟩ <;> subst h <;>
      exact ⟨rfl, rfl, rfl, rfl, by intro hc; cases hc⟩
  · rcases mem_analyticsEvents env mgr e h with ⟨a, b, c, d, f, g, h', i, j, hh⟩
    subst hh; exact ⟨rfl, rfl, rfl, rfl, by intro hc; cases hc⟩
  · subst h; exact ⟨rfl, rfl, rfl, rfl, by intro hc; cases hc⟩
  · have := mem_finalizeCleanup env mgr e h
    subst this; exact ⟨rfl, rfl, rfl, rfl, by intro hc; cases hc⟩
  · subst h; exact ⟨rfl, rfl, rfl, rfl, by intro hc; cases hc⟩
  · subst h; exact ⟨rfl, rfl, rfl, rfl, by intro hc; cases hc⟩
  · subst h; exact ⟨rfl, rfl, rfl, rfl, by intro hc; cases hc⟩

theorem progressLog_append (l₁ l₂ : List Event) :
    progressLog (l₁ ++ l₂) = progressLog l₁ ++ progressLog l₂ := by
  simp [progressLog]

theorem progressLog_ticks (ts : List Nat) :
    progressLog (ts.map tickEvent) = [] := by
  induction ts with
  | nil => rfl
  | cons t ts ih =>
      simp only [List.map_cons, progressLog, List.filterMap_cons]
      exact ih

theorem progressLog_drain (env : StopEnv) (b : Bool) :
    progressLog (drainEvents env b) = [] := by
  cases b with
  | false => rfl
  | true =>
      show progressLog ([Event.spawnProgressTask]
        ++ env.ticks.map tickEvent
        ++ [Event.awaitJoin env.joinResult, Event.abortProgressTask]) = []
      rw [progressLog_append, progressLog_append, progressLog_ticks]
      rfl

theorem progressLog_unload (env : StopEnv) :
    progressLog (unloadEvents env) = [] := by
  unfold unloadEvents
  split
  · cases env.parakeetEngine <;> rfl
  · cases env.whisperEngine <;> rfl

theorem progressLog_analytics (env : StopEnv) (mgr : Option RecordingManager) :
    progressLog (analyticsEvents env mgr) = [] := by
  cases mgr <;> rfl

theorem progressLog_cleanup (env : StopEnv) (mgr : Option RecordingManager) :
    progressLog (finalizeCleanup env mgr).1 = [] := by
  cases mgr <;> rfl

theorem progressLog_suffix (env : StopEnv) (mgr : Option RecordingManager) :
    progressLog (stopSuffixEvents env mgr) =
      [("unloading_model", "Unloading speech recognition model...", 70),
       ("finalizing", "Finalizing recording and cleaning up resources...", 90),
       ("complete", "Recording stopped successfully", 100)] := by
  show progressLog ([progressEvent "unloading_model" "Unloading speech recognition model..." 70]
      ++ unloadEvents env ++ analyticsEvents env mgr
      ++ [progressEvent "finalizing" "Finalizing recording and cleaning up resources..." 90]
      ++ (finalizeCleanup env mgr).1
      ++ _) = _
  rw [progressLog_append, progressLog_append, progressLog_append,
    progressLog_append, progressLog_append, progressLog_unload,
    progressLog_analytics, progressLog_cleanup]
  rfl

theorem progressLog_prefixEvents (b : Bool) :
    progressLog (stopPrefixEvents b) =
      [("stopping_audio", "Stopping audio capture...", 20),
       ("processing_transcripts", "Processing remaining transcript chunks...", 40)] := by
  cases b <;> rfl

/-! ### Claims -/

/-- C9: calling `stop_recording` while no recording is active returns `Ok`,
emits nothing and mutates no global state — a silent no-op rather than a
`NotRecording` error. -/
theorem stop_noop_when_not_recording (env : StopEnv) (s : GlobalState)
    (h : s.IS_RECORDING = false) :
    (stop_recording env s).result = .ok ()
      ∧ (stop_recording env s).state = s
      ∧ (stop_recording env s).events = [] := by
  simp [stop_recording, h]

/-- Witness for C9 at the idle sample state. -/
theorem stop_noop_when_not_recording_witness :
    idleState.IS_RECORDING = false
      ∧ (stop_recording stopEnvOk idleState).result = .ok ()
      ∧ (stop_recording stopEnvOk idleState).state = idleState
      ∧ (stop_recording stopEnvOk idleState).events = [] :=
  ⟨rfl, stop_noop_when_not_recording stopEnvOk idleState rfl⟩

/-- C10: every non-mutating query called when no recording manager exists
returns a safe default: `is_recording_paused` is `false`,
`get_recording_state` reports not paused, not active, null durations and a
zero total pause duration, `get_transcript_history` is the empty list, and
`poll_audio_device_events` returns `None` (and changes nothing). -/
theorem queries_safe_defaults_without_manager (s : GlobalState)
    (h : s.RECORDING_MANAGER = none) :
    is_recording_paused s = false
      ∧ get_recording_state s =
          { is_recording := s.IS_RECORDING
            is_paused := false
            is_active := false
            recording_duration := none
            active_duration := none
            total_pause_duration := 0
            current_pause_duration := none }
      ∧ get_transcript_history s = .ok []
      ∧ (poll_audio_device_events s).1 = .ok none
      ∧ (poll_audio_device_events s).2 = s := by
  refine ⟨?_, ?_, ?_, ?_, ?_⟩ <;>
    simp [is_recording_paused, get_recording_state, get_transcript_history,
      poll_audio_device_events, h]

/-- Witness for C10 at the idle sample state. -/
theorem queries_safe_defaults_without_manager_witness :
    idleState.RECORDING_MANAGER = none
      ∧ (is_recording_paused idleState = false
          ∧ get_recording_state idleState =
              { is_recording := idleState.IS_RECORDING
                is_paused := false
                is_active := false
                recording_duration := none
                active_duration := none
                total_pause_duration := 0
                current_pause_duration := none }
          ∧ get_transcript_history idleState = .ok []
          ∧ (poll_audio_device_events idleState).1 = .ok none
          ∧ (poll_audio_device_events idleState).2 = idleState) :=
  ⟨rfl, queries_safe_defaults_without_manager idleState rfl⟩

/-- C8: for every received `TranscriptUpdate`, the segment the listener
hands to the manager has `id` equal to `"seg_"` concatenated with the
update's sequence id and carries the update's text, audio start/end times,
duration, wall-clock timestamp (as `display_time`), confidence and sequence
id unchanged; when the manager does not yet hold a segment with that
sequence id the segment is appended, and the keyed append is idempotent — a
second delivery of the same update changes nothing. -/
theorem listener_segment_fields (s : GlobalState) (m : RecordingManager)
    (update : TranscriptUpdate) (hm : s.RECORDING_MANAGER = some m)
    (hfresh : m.segments.any
        (fun seg => seg.sequence_id = update.sequence_id) = false) :
    (listenerSegment update).id = "seg_" ++ toString update.sequence_id
      ∧ (listenerSegment update).text = update.text
      ∧ (listenerSegment update).audio_start_time = update.audio_start_time
      ∧ (listenerSegment update).audio_end_time = update.audio_end_time
      ∧ (listenerSegment update).duration = update.duration
      ∧ (listenerSegment update).display_time = update.timestamp
      ∧ (listenerSegment update).confidence = update.confidence
      ∧ (listenerSegment update).sequence_id = update.sequence_id
      ∧ (on_transcript_update s update).RECORDING_MANAGER
          = some { m with segments := m.segments ++ [listenerSegment update] }
      ∧ on_transcript_update (on_transcript_update s update) update
          = on_transcript_update s update := by
  refine ⟨rfl, rfl, rfl, rfl, rfl, rfl, rfl, rfl, ?_, ?_⟩
  · simp [on_transcript_update, hm, RecordingManager.add_transcript_segment,
      listenerSegment, hfresh]
  · simp [on_transcript_update, hm, RecordingManager.add_transcript_segment,
      listenerSegment, hfresh, List.any_append]

/-- Witness for C8 at the sample update and active state (whose manager
holds no segment yet). -/
theorem listener_segment_fields_witness :
    activeState.RECORDING_MANAGER = some sampleManager
      ∧ sampleManager.segments.any
          (fun seg => seg.sequence_id = sampleUpdate.sequence_id) = false
      ∧ ((listenerSegment sampleUpdate).id
            = "seg_" ++ toString sampleUpdate.sequence_id
          ∧ (listenerSegment sampleUpdate).text = sampleUpdate.text
          ∧ (listenerSegment sampleUpdate).audio_start_time
              = sampleUpdate.audio_start_time
          ∧ (listenerSegment sampleUpdate).audio_end_time
              = sampleUpdate.audio_end_time
          ∧ (listenerSegment sampleUpdate).duration = sampleUpdate.duration
          ∧ (listenerSegment sampleUpdate).display_time = sampleUpdate.timestamp
          ∧ (listenerSegment sampleUpdate).confidence = sampleUpdate.confidence
          ∧ (listenerSegment sampleUpdate).sequence_id = sampleUpdate.sequence_id
          ∧ (on_transcript_update activeState sampleUpdate).RECORDING_MANAGER
              = some { sampleManager with
                  segments := sampleManager.segments
                    ++ [listenerSegment sampleUpdate] }
          ∧ on_transcript_update (on_transcript_update activeState sampleUpdate)
                sampleUpdate
              = on_transcript_update activeState sampleUpdate) :=
  ⟨rfl, rfl,
    listener_segment_fields activeState sampleManager sampleUpdate rfl rfl⟩

/-- C3: every start variant called while a recording session is already
active fails with the already-in-progress error and leaves the global state
(recording flag, manager, transcription task) unchanged, emitting nothing. -/
theorem start_rejected_when_already_active (env : StartEnv) (s : GlobalState)
    (mic sys meeting : Option String) (h : s.IS_RECORDING = true) :
    (start_recording_with_meeting_name env meeting s).result
        = .error "Recording already in progress"
      ∧ (start_recording_with_meeting_name env meeting s).state = s
      ∧ (start_recording_with_meeting_name env meeting s).events = []
      ∧ (start_recording_with_devices_and_meeting env mic sys meeting s).result
          = .error "Recording already in progress"
      ∧ (start_recording_with_devices_and_meeting env mic sys meeting s).state = s
      ∧ (start_recording_with_devices_and_meeting env mic sys meeting s).events
          = [] := by
  refine ⟨?_, ?_, ?_, ?_, ?_, ?_⟩ <;>
    simp [start_recording_with_meeting_name,
      start_recording_with_devices_and_meeting, h]

/-- Witness for C3 at the active sample state. -/
theorem start_rejected_when_already_active_witness :
    activeState.IS_RECORDING = true
      ∧ ((start_recording_with_meeting_name startEnvOk (some "M") activeState).result
            = .error "Recording already in progress"
          ∧ (start_recording_with_meeting_name startEnvOk (some "M") activeState).state
              = activeState
          ∧ (start_recording_with_meeting_name startEnvOk (some "M") activeState).events
              = []
          ∧ (start_recording_with_devices_and_meeting startEnvOk (some "Mic")
                (some "Sys") (some "M") activeState).result
              = .error "Recording already in progress"
          ∧ (start_recording_with_devices_and_meeting startEnvOk (some "Mic")
                (some "Sys") (some "M") activeState).state = activeState
          ∧ (start_recording_with_devices_and_meeting startEnvOk (some "Mic")
                (some "Sys") (some "M") activeState).events = []) :=
  ⟨rfl, start_rejected_when_already_active startEnvOk activeState
    (some "Mic") (some "Sys") (some "M") rfl⟩

/-- C4: start is atomic with respect to precondition failures — when
transcription-model validation fails (either variant), or when parsing of
the named microphone or system device fails, start returns the error and the
global state is unchanged: no manager is stored, the recording flag stays
false and no transcription task is spawned. -/
theorem start_atomic_on_precondition_failure (env : StartEnv) (s : GlobalState)
    (mic sys meeting : Option String) (hrec : s.IS_RECORDING = false) :
    (∀ ve, env.validationResult = .error ve →
        (start_recording_with_meeting_name env meeting s).result = .error ve
          ∧ (start_recording_with_meeting_name env meeting s).state = s
          ∧ (start_recording_with_devices_and_meeting env mic sys meeting s).result
              = .error ve
          ∧ (start_recording_with_devices_and_meeting env mic sys meeting s).state
              = s)
      ∧ (env.validationResult = .ok () →
          ∀ name e, mic = some name → env.parseDevice name = .error e →
            (start_recording_with_devices_and_meeting env mic sys meeting s).result
                = .error ("Invalid microphone device '" ++ name ++ "': " ++ e)
              ∧ (start_recording_with_devices_and_meeting env mic sys meeting
                  s).state = s)
      ∧ (env.validationResult = .ok () →
          parseOptDevice env "microphone" mic = .ok () →
          ∀ name e, sys = some name → env.parseDevice name = .error e →
            (start_recording_with_devices_and_meeting env mic sys meeting s).result
                = .error ("Invalid system device '" ++ name ++ "': " ++ e)
              ∧ (start_recording_with_devices_and_meeting env mic sys meeting
                  s).state = s) := by
  refine ⟨?_, ?_, ?_⟩
  · intro ve hval
    refine ⟨?_, ?_, ?_, ?_⟩ <;>
      simp [start_recording_with_meeting_name,
        start_recording_with_devices_and_meeting, hrec, hval]
  · intro hval name e hmic hparse
    subst hmic
    refine ⟨?_, ?_⟩ <;>
      simp [start_recording_with_devices_and_meeting, hrec, hval,
        parseOptDevice, hparse]
  · intro hval hmic name e hsys hparse
    subst hsys
    have hsysErr : parseOptDevice env "system" (some name)
        = .error ("Invalid system device '" ++ name ++ "': " ++ e) := by
      simp [parseOptDevice, hparse]
    refine ⟨?_, ?_⟩ <;>
      simp [start_recording_with_devices_and_meeting, hrec, hval, hmic,
        hsysErr]

/-- Witness for C4: with no model available, start fails and allocates
nothing; with an unparsable microphone device likewise. -/
theorem start_atomic_on_precondition_failure_witness :
    idleState.IS_RECORDING = false
      ∧ startEnvNoModel.validationResult
          = .error "No transcription models available"
      ∧ (start_recording_with_meeting_name startEnvNoModel none idleState).result
          = .error "No transcription models available"
      ∧ (start_recording_with_meeting_name startEnvNoModel none idleState).state
          = idleState
      ∧ (start_recording_with_devices_and_meeting startEnvBadDevice
            (some "USB Mic") none none idleState).result
          = .error "Invalid microphone device 'USB Mic': no such device"
      ∧ (start_recording_with_devices_and_meeting startEnvBadDevice
            (some "USB Mic") none none idleState).state = idleState := by
  refine ⟨rfl, rfl, ?_, ?_, ?_, ?_⟩
  · exact ((start_atomic_on_precondition_failure startEnvNoModel idleState
      none none none rfl).1 _ rfl).1
  · exact ((start_atomic_on_precondition_failure startEnvNoModel idleState
      none none none rfl).1 _ rfl).2.1
  · exact ((start_atomic_on_precondition_failure startEnvBadDevice idleState
      (some "USB Mic") none none rfl).2.1 rfl "USB Mic" "no such device"
      rfl rfl).1
  · exact ((start_atomic_on_precondition_failure startEnvBadDevice idleState
      (some "USB Mic") none none rfl).2.1 rfl "USB Mic" "no such device"
      rfl rfl).2

/-- C1: shutdown sequencing is strict — when halting the audio streams
fails, stop returns that error and emits nothing past the stream-halt call
(no drain wait, no model teardown); when it succeeds, the stream-halt call
precedes the worker-task await, which in turn precedes every model-unload
effect. -/
theorem stop_shutdown_sequencing (env : StopEnv) (s : GlobalState)
    (m : RecordingManager) (hrec : s.IS_RECORDING = true)
    (hm : s.RECORDING_MANAGER = some m) :
    (∀ msg, env.stopStreamsResult = .error msg →
        (stop_recording env s).result
            = .error ("Failed to stop audio streams: " ++ msg)
          ∧ (stop_recording env s).events
              = [progressEvent "stopping_audio" "Stopping audio capture..." 20,
                 Event.stopStreamsCall])
      ∧ (env.stopStreamsResult = .ok () →
          Event.stopStreamsCall ∈ (stop_recording env s).events
            ∧ precedes isStopStreams isAwait (stop_recording env s).events
            ∧ precedes isStopStreams isUnload (stop_recording env s).events
            ∧ precedes isAwait isUnload (stop_recording env s).events
            ∧ (s.TRANSCRIPTION_TASK = true →
                Event.awaitJoin env.joinResult ∈ (stop_recording env s).events)) := by
  constructor
  · intro msg herr
    rw [stop_recording_eq_err env s m msg hrec hm herr]
    exact ⟨rfl, rfl⟩
  · intro hok
    have hev : (stop_recording env s).events
        = stopPrefixEvents true ++ drainEvents env s.TRANSCRIPTION_TASK
            ++ stopSuffixEvents env (some m) := by
      rw [stop_recording_eq_ok env s m hrec hm hok]
    rw [hev]
    refine ⟨?_, ?_, ?_, ?_, ?_⟩
    · simp [stopPrefixEvents]
    · rw [List.append_assoc]
      refine precedes_of_split _ _ _ _
        (fun e he => (stopPrefixEvents_class true e he).1) (fun e he => ?_)
      rcases List.mem_append.mp he with h | h
      · exact (drainEvents_class env _ e h).1
      · exact (stopSuffixEvents_class env _ e h).1
    · refine precedes_of_split _ _ _ _ (fun e he => ?_)
        (fun e he => (stopSuffixEvents_class env _ e he).1)
      rcases List.mem_append.mp he with h | h
      · exact (stopPrefixEvents_class true e h).2.1
      · exact (drainEvents_class env _ e h).2.1
    · refine precedes_of_split _ _ _ _ (fun e he => ?_)
        (fun e he => (stopSuffixEvents_class env _ e he).2.1)
      rcases List.mem_append.mp he with h | h
      · exact (stopPrefixEvents_class true e h).2.1
      · exact (drainEvents_class env _ e h).2.1
    · intro htask
      simp [drainEvents, htask]

/-- Witness for C1 at the active sample state with a succeeding stop
environment. -/
theorem stop_shutdown_sequencing_witness :
    activeState.IS_RECORDING = true
      ∧ activeState.RECORDING_MANAGER = some sampleManager
      ∧ ((∀ msg, stopEnvOk.stopStreamsResult = .error msg →
            (stop_recording stopEnvOk activeState).result
                = .error ("Failed to stop audio streams: " ++ msg)
              ∧ (stop_recording stopEnvOk activeState).events
                  = [progressEvent "stopping_audio" "Stopping audio capture..." 20,
                     Event.stopStreamsCall])
          ∧ (stopEnvOk.stopStreamsResult = .ok () →
              Event.stopStreamsCall ∈ (stop_recording stopEnvOk activeState).events
                ∧ precedes isStopStreams isAwait
                    (stop_recording stopEnvOk activeState).events
                ∧ precedes isStopStreams isUnload
                    (stop_recording stopEnvOk activeState).events
                ∧ precedes isAwait isUnload
                    (stop_recording stopEnvOk activeState).events
                ∧ (activeState.TRANSCRIPTION_TASK = true →
                    Event.awaitJoin stopEnvOk.joinResult
                      ∈ (stop_recording stopEnvOk activeState).events))) :=
  ⟨rfl, rfl, stop_shutdown_sequencing stopEnvOk activeState sampleManager rfl rfl⟩

theorem filter_ticks (ts : List Nat) :
    (ts.map tickEvent).filter (fun e => !isDetailedProgress e) = [] := by
  induction ts with
  | nil => rfl
  | cons t ts ih =>
      simp only [List.map_cons, List.filter_cons]
      rw [ih]
      rfl

theorem filter_drainEvents (env : StopEnv) (b : Bool) :
    (drainEvents env b).filter (fun e => !isDetailedProgress e)
      = if b then
          [Event.spawnProgressTask, Event.awaitJoin env.joinResult,
           Event.abortProgressTask]
        else [] := by
  cases b with
  | false => rfl
  | true =>
      show ([Event.spawnProgressTask] ++ env.ticks.map tickEvent
          ++ [Event.awaitJoin env.joinResult,
              Event.abortProgressTask]).filter (fun e => !isDetailedProgress e) = _
      rw [List.filter_append, List.filter_append, filter_ticks]
      rfl

/-- C2: the wait for the transcription worker is unbounded — the outcome of
stop (result, final state, and all effects other than the periodic
`detailed` progress emissions) is the same no matter how many 500 ms
progress periods elapse before the join resolves, the await occurs for
either join outcome, and model unloading and finalization happen only after
the await has resolved. -/
theorem stop_drain_wait_unbounded (env : StopEnv) (s : GlobalState)
    (m : RecordingManager) (hrec : s.IS_RECORDING = true)
    (hm : s.RECORDING_MANAGER = some m)
    (hok : env.stopStreamsResult = .ok ())
    (htask : s.TRANSCRIPTION_TASK = true) :
    (∀ ticks : List Nat,
        (stop_recording { env with ticks := ticks } s).result
            = (stop_recording env s).result
          ∧ (stop_recording { env with ticks := ticks } s).state
              = (stop_recording env s).state
          ∧ (stop_recording { env with ticks := ticks } s).events.filter
                (fun e => !isDetailedProgress e)
              = (stop_recording env s).events.filter
                  (fun e => !isDetailedProgress e))
      ∧ (stop_recording env s).result = .ok ()
      ∧ Event.awaitJoin env.joinResult ∈ (stop_recording env s).events
      ∧ precedes isAwait isUnload (stop_recording env s).events
      ∧ precedes isAwait isSaveCall (stop_recording env s).events := by
  have hev := stop_recording_eq_ok env s m hrec hm hok
  refine ⟨?_, ?_, ?_, ?_, ?_⟩
  · intro ticks
    have hev' := stop_recording_eq_ok { env with ticks := ticks } s m hrec hm hok
    refine ⟨?_, ?_, ?_⟩
    · rw [hev, hev']
    · rw [hev, hev']
    · rw [hev, hev']
      simp only [List.filter_append, filter_drainEvents, htask, if_true]
      rfl
  · rw [hev]
  · rw [hev]
    simp [drainEvents, htask]
  · rw [hev]
    refine precedes_of_split _ _ _ _ (fun e he => ?_)
      (fun e he => (stopSuffixEvents_class env _ e he).2.1)
    rcases List.mem_append.mp he with h | h
    · exact (stopPrefixEvents_class true e h).2.1
    · exact (drainEvents_class env _ e h).2.1
  · rw [hev]
    refine precedes_of_split _ _ _ _ (fun e he => ?_)
      (fun e he => (stopSuffixEvents_class env _ e he).2.1)
    rcases List.mem_append.mp he with h | h
    · exact (stopPrefixEvents_class true e h).2.2.2.1
    · exact (drainEvents_class env _ e h).2.2

/-- Witness for C2 at the active sample state. -/
theorem stop_drain_wait_unbounded_witness :
    activeState.IS_RECORDING = true
      ∧ activeState.RECORDING_MANAGER = some sampleManager
      ∧ stopEnvOk.stopStreamsResult = .ok ()
      ∧ activeState.TRANSCRIPTION_TASK = true
      ∧ ((∀ ticks : List Nat,
            (stop_recording { stopEnvOk with ticks := ticks } activeState).result
                = (stop_recording stopEnvOk activeState).result
              ∧ (stop_recording { stopEnvOk with ticks := ticks }
                    activeState).state
                  = (stop_recording stopEnvOk activeState).state
              ∧ (stop_recording { stopEnvOk with ticks := ticks }
                    activeState).events.filter (fun e => !isDetailedProgress e)
                  = (stop_recording stopEnvOk activeState).events.filter
                      (fun e => !isDetailedProgress e))
          ∧ (stop_recording stopEnvOk activeState).result = .ok ()
          ∧ Event.awaitJoin stopEnvOk.joinResult
              ∈ (stop_recording stopEnvOk activeState).events
          ∧ precedes isAwait isUnload
              (stop_recording stopEnvOk activeState).events
          ∧ precedes isAwait isSaveCall
              (stop_recording stopEnvOk activeState).events) :=
  ⟨rfl, rfl, rfl, rfl,
    stop_drain_wait_unbounded stopEnvOk activeState sampleManager rfl rfl rfl rfl⟩

/-- C5: the periodic shutdown-progress task is spawned exactly when a
transcription worker task exists, and is always aborted once the await
resolves — for either join outcome (the environment's `joinResult` is
universally quantified here), the abort follows the await; when no worker
task exists, no progress task is spawned and none is aborted, so no orphaned
background task survives stop. -/
theorem progress_task_always_cancelled (env : StopEnv) (s : GlobalState)
    (m : RecordingManager) (hrec : s.IS_RECORDING = true)
    (hm : s.RECORDING_MANAGER = some m)
    (hok : env.stopStreamsResult = .ok ()) :
    (s.TRANSCRIPTION_TASK = true →
        Event.spawnProgressTask ∈ (stop_recording env s).events
          ∧ Event.abortProgressTask ∈ (stop_recording env s).events
          ∧ precedes isAwait isAbort (stop_recording env s).events)
      ∧ (s.TRANSCRIPTION_TASK = false →
          Event.spawnProgressTask ∉ (stop_recording env s).events
            ∧ Event.abortProgressTask ∉ (stop_recording env s).events) := by
  have hev := stop_recording_eq_ok env s m hrec hm hok
  constructor
  · intro htask
    refine ⟨?_, ?_, ?_⟩
    · rw [hev]; simp [drainEvents, htask]
    · rw [hev]; simp [drainEvents, htask]
    · have hsplit : (stop_recording env s).events
          = (stopPrefixEvents true ++ [Event.spawnProgressTask]
              ++ env.ticks.map tickEvent ++ [Event.awaitJoin env.joinResult])
            ++ (Event.abortProgressTask :: stopSuffixEvents env (some m)) := by
        rw [hev]
        simp [drainEvents, htask, stopPrefixEvents]
      rw [hsplit]
      refine precedes_of_split _ _ _ _ (fun e he => ?_) (fun e he => ?_)
      · rcases List.mem_append.mp he with h | h
        · rcases List.mem_append.mp h with h | h
          · rcases List.mem_append.mp h with h | h
            · exact (stopPrefixEvents_class true e h).2.2.1
            · simp at h; subst h; rfl
          · rcases List.mem_map.mp h with ⟨t, _, h⟩
            subst h; rfl
        · simp at h; subst h; rfl
      · rcases List.mem_cons.mp he with h | h
        · subst h; rfl
        · exact (stopSuffixEvents_class env _ e h).2.1
  · intro htask
    have hdrain : drainEvents env false = [] := rfl
    rw [hev, htask, hdrain, List.append_nil]
    constructor
    · intro hmem
      rcases List.mem_append.mp hmem with h | h
      · exact (stopPrefixEvents_class true _ h).2.2.2.2.2 rfl
      · exact (stopSuffixEvents_class env _ _ h).2.2.2.2 rfl
    · intro hmem
      rcases List.mem_append.mp hmem with h | h
      · exact absurd (stopPrefixEvents_class true _ h).2.2.1 (by simp [isAbort])
      · exact absurd (stopSuffixEvents_class env _ _ h).2.2.1 (by simp [isAbort])

/-- Witness for C5 at the active sample state, with a failing join outcome
(the progress task is aborted even when the await resolves with an error). -/
theorem progress_task_always_cancelled_witness :
    activeState.IS_RECORDING = true
      ∧ activeState.RECORDING_MANAGER = some sampleManager
      ∧ stopEnvFailing.stopStreamsResult = .ok ()
      ∧ stopEnvFailing.joinResult = .error "worker panicked"
      ∧ ((activeState.TRANSCRIPTION_TASK = true →
            Event.spawnProgressTask
                ∈ (stop_recording stopEnvFailing activeState).events
              ∧ Event.abortProgressTask
                  ∈ (stop_recording stopEnvFailing activeState).events
              ∧ precedes isAwait isAbort
                  (stop_recording stopEnvFailing activeState).events)
          ∧ (activeState.TRANSCRIPTION_TASK = false →
              Event.spawnProgressTask
                  ∉ (stop_recording stopEnvFailing activeState).events
                ∧ Event.abortProgressTask
                    ∉ (stop_recording stopEnvFailing activeState).events)) :=
  ⟨rfl, rfl, rfl, rfl,
    progress_task_always_cancelled stopEnvFailing activeState sampleManager
      rfl rfl rfl⟩

/-- The five-stage progress log and the detailed-tick classification, for
any phase decomposition of a successful stop. -/
theorem stage_order_aux (env : StopEnv) (mgr : Option RecordingManager)
    (hasMgr b : Bool) :
    progressLog (stopPrefixEvents hasMgr ++ drainEvents env b
        ++ stopSuffixEvents env mgr)
      = [("stopping_audio", "Stopping audio capture...", 20),
         ("processing_transcripts",
           "Processing remaining transcript chunks...", 40),
         ("unloading_model", "Unloading speech recognition model...", 70),
         ("finalizing", "Finalizing recording and cleaning up resources...", 90),
         ("complete", "Recording stopped successfully", 100)]
      ∧ ∀ stage msg p,
          Event.shutdownProgress stage msg p true
              ∈ stopPrefixEvents hasMgr ++ drainEvents env b
                  ++ stopSuffixEvents env mgr →
            stage = "processing_transcripts" ∧ p = 40 := by
  constructor
  · rw [progressLog_append, progressLog_append, progressLog_prefixEvents,
      progressLog_drain, progressLog_suffix]
    rfl
  · intro stage msg p hmem
    rcases List.mem_append.mp hmem with h | h
    · rcases List.mem_append.mp h with h | h
      · exact absurd (stopPrefixEvents_class hasMgr _ h).2.2.2.2.1
          (by simp [isDetailedProgress])
      · rcases mem_drainEvents env b _ h with h' | ⟨t, h'⟩ | h' | h'
        · exact Event.noConfusion h'
        · rw [tickEvent] at h'
          injection h' with h1 h2 h3 h4
          exact ⟨h1, h3⟩
        · exact Event.noConfusion h'
        · exact Event.noConfusion h'
    · exact absurd (stopSuffixEvents_class env mgr _ h).2.2.2.1
        (by simp [isDetailedProgress])

/-- C6: a stop of an active session that returns without error emits the
shutdown-progress stages in exactly the order `stopping_audio` (20 %),
`processing_transcripts` (40 %), `unloading_model` (70 %), `finalizing`
(90 %), `complete` (100 %), each as a `(stage, message, percent)` tuple;
the only other shutdown-progress emissions are the periodic `detailed`
ticks, all at stage `processing_transcripts` / 40 %. -/
theorem stop_progress_stage_order (env : StopEnv) (s : GlobalState)
    (hrec : s.IS_RECORDING = true)
    (hres : (stop_recording env s).result = .ok ()) :
    progressLog (stop_recording env s).events
        = [("stopping_audio", "Stopping audio capture...", 20),
           ("processing_transcripts",
             "Processing remaining transcript chunks...", 40),
           ("unloading_model", "Unloading speech recognition model...", 70),
           ("finalizing",
             "Finalizing recording and cleaning up resources...", 90),
           ("complete", "Recording stopped successfully", 100)]
      ∧ ∀ stage msg p,
          Event.shutdownProgress stage msg p true
              ∈ (stop_recording env s).events →
            stage = "processing_transcripts" ∧ p = 40 := by
  cases hm : s.RECORDING_MANAGER with
  | none =>
      have hev : (stop_recording env s).events
          = stopPrefixEvents false ++ drainEvents env s.TRANSCRIPTION_TASK
              ++ stopSuffixEvents env none := by
        rw [stop_recording_eq_no_mgr env s hrec hm]
      rw [hev]
      exact stage_order_aux env none false s.TRANSCRIPTION_TASK
  | some m =>
      cases hok : env.stopStreamsResult with
      | error msg =>
          rw [stop_recording_eq_err env s m msg hrec hm hok] at hres
          exact Except.noConfusion hres
      | ok u =>
          cases u
          have hev : (stop_recording env s).events
              = stopPrefixEvents true ++ drainEvents env s.TRANSCRIPTION_TASK
                  ++ stopSuffixEvents env (some m) := by
            rw [stop_recording_eq_ok env s m hrec hm hok]
          rw [hev]
          exact stage_order_aux env (some m) true s.TRANSCRIPTION_TASK

/-- Witness for C6 at the active sample state. -/
theorem stop_progress_stage_order_witness :
    activeState.IS_RECORDING = true
      ∧ (stop_recording stopEnvOk activeState).result = .ok ()
      ∧ (progressLog (stop_recording stopEnvOk activeState).events
            = [("stopping_audio", "Stopping audio capture...", 20),
               ("processing_transcripts",
                 "Processing remaining transcript chunks...", 40),
               ("unloading_model", "Unloading speech recognition model...", 70),
               ("finalizing",
                 "Finalizing recording and cleaning up resources...", 90),
               ("complete", "Recording stopped successfully", 100)]
          ∧ ∀ stage msg p,
              Event.shutdownProgress stage msg p true
                  ∈ (stop_recording stopEnvOk activeState).events →
                stage = "processing_transcripts" ∧ p = 40) :=
  ⟨rfl, rfl, stop_progress_stage_order stopEnvOk activeState rfl rfl⟩

/-- C7: once the audio streams are halted, no later failure aborts the
shutdown — for every environment (including failing save, failing or absent
engine, failing analytics, failing join), stop still returns `Ok`, the
recording flag is cleared, the manager is dropped, and the final
`recording-stopped` notification carrying the meeting folder and name is
emitted. -/
theorem stop_finalizes_despite_late_failures (env : StopEnv) (s : GlobalState)
    (m : RecordingManager) (hrec : s.IS_RECORDING = true)
    (hm : s.RECORDING_MANAGER = some m)
    (hok : env.stopStreamsResult = .ok ()) :
    (stop_recording env s).result = .ok ()
      ∧ (stop_recording env s).state.IS_RECORDING = false
      ∧ (stop_recording env s).state.RECORDING_MANAGER = none
      ∧ Event.recordingStopped
            (pairFolderName m.meetingFolder m.meetingName).1
            (pairFolderName m.meetingFolder m.meetingName).2
          ∈ (stop_recording env s).events := by
  have hev := stop_recording_eq_ok env s m hrec hm hok
  rw [hev]
  refine ⟨rfl, rfl, rfl, ?_⟩
  simp [stopSuffixEvents, finalizeCleanup, RecordingManager.get_meeting_folder,
    RecordingManager.get_meeting_name]

/-- Witness for C7 at the active sample state, with every post-activation
collaborator failing. -/
theorem stop_finalizes_despite_late_failures_witness :
    activeState.IS_RECORDING = true
      ∧ activeState.RECORDING_MANAGER = some sampleManager
      ∧ stopEnvFailing.stopStreamsResult = .ok ()
      ∧ stopEnvFailing.saveResult = .error "disk full"
      ∧ stopEnvFailing.whisperEngine = none
      ∧ stopEnvFailing.analyticsOk = false
      ∧ ((stop_recording stopEnvFailing activeState).result = .ok ()
          ∧ (stop_recording stopEnvFailing activeState).state.IS_RECORDING
              = false
          ∧ (stop_recording stopEnvFailing activeState).state.RECORDING_MANAGER
              = none
          ∧ Event.recordingStopped
                (pairFolderName sampleManager.meetingFolder
                  sampleManager.meetingName).1
                (pairFolderName sampleManager.meetingFolder
                  sampleManager.meetingName).2
              ∈ (stop_recording stopEnvFailing activeState).events) :=
  ⟨rfl, rfl, rfl, rfl, rfl, rfl,
    stop_finalizes_despite_late_failures stopEnvFailing activeState
      sampleManager rfl rfl rfl⟩

end RecordingCommands
